import Mathlib

/-!
Verification of the session-orchestration core of the ai-loan-processing-engine
backend: the session document store (`app/services/session_document_store.py`),
the cached document-analysis service
(`app/services/document_intelligence_service.py`), the document upload router
(`app/routers/document_intelligence_router.py`) and the chat error path
(`app/routers/chat_router.py`, `app/services/agent_service.py`).

The Python code is shallowly embedded: the mutable in-memory stores become
explicit state values threaded through the operations, `datetime.now()` becomes
an explicit `now : Nat` argument (seconds), exceptions become `Except`, and the
external Azure calls become oracle function parameters.  Python `dict`s
(insertion ordered, unique keys) are embedded as association lists.
-/

set_option maxRecDepth 10000

/-! ## Association-list helpers (embedding of Python `dict`) -/

/-- Lookup in an association list (Python `d.get(k)` / `d[k]`). -/
def alGet {α β : Type} [DecidableEq α] : List (α × β) → α → Option β
  | [], _ => none
  | (k', v) :: rest, k => if k = k' then some v else alGet rest k

/-- Update (or insert at the end) in an association list (Python `d[k] = v`).
Python dicts keep the original position of an existing key and append new
keys at the end. -/
def alSet {α β : Type} [DecidableEq α] : List (α × β) → α → β → List (α × β)
  | [], k, v => [(k, v)]
  | (k', v') :: rest, k, v =>
      if k = k' then (k, v) :: rest else (k', v') :: alSet rest k v

/-- Deletion from an association list (Python `del d[k]`). -/
def alErase {α β : Type} [DecidableEq α] : List (α × β) → α → List (α × β)
  | [], _ => []
  | (k', v') :: rest, k =>
      if k = k' then rest else (k', v') :: alErase rest k

theorem alGet_alSet_self {α β : Type} [DecidableEq α] (l : List (α × β)) (k : α) (v : β) :
    alGet (alSet l k v) k = some v := by
  induction l with
  | nil => simp [alGet, alSet]
  | cons hd tl ih =>
      obtain ⟨k', v'⟩ := hd
      by_cases h : k = k' <;> simp [alGet, alSet, h, ih]

theorem alGet_alSet_ne {α β : Type} [DecidableEq α] (l : List (α × β)) (k k' : α) (v : β)
    (h : k' ≠ k) : alGet (alSet l k v) k' = alGet l k' := by
  induction l with
  | nil => simp [alGet, alSet, h]
  | cons hd tl ih =>
      obtain ⟨k'', v''⟩ := hd
      by_cases h1 : k = k''
      · subst h1
        simp [alGet, alSet, h]
      · by_cases h2 : k' = k'' <;> simp [alGet, alSet, h1, h2, ih]

theorem alGet_alErase_ne {α β : Type} [DecidableEq α] (l : List (α × β)) (k k' : α)
    (h : k' ≠ k) : alGet (alErase l k) k' = alGet l k' := by
  induction l with
  | nil => simp [alErase]
  | cons hd tl ih =>
      obtain ⟨k'', v''⟩ := hd
      by_cases h1 : k = k''
      · subst h1
        simp [alGet, alErase, h]
      · by_cases h2 : k' = k'' <;> simp [alGet, alErase, h1, h2, ih]

/-- Whitespace characters recognized by Python `str.strip()` (ASCII fragment;
every identifier in the claims is ASCII). -/
def pyIsSpace (c : Char) : Bool :=
  c = ' ' ∨ c = '\t' ∨ c = '\n' ∨ c = '\r' ∨ c = '\x0b' ∨ c = '\x0c'

/-- Python `str.strip()` on ASCII strings: remove leading and trailing
whitespace. -/
def pyStrip (s : String) : String :=
  ⟨((s.data.dropWhile pyIsSpace).reverse.dropWhile pyIsSpace).reverse⟩

/-! ## Session document store (`app/services/session_document_store.py`) -/

/-- Embedding of the `SessionDocument` dataclass.  `upload_timestamp` is in
seconds; the analysis payload (a Python `Dict[str, Any]` produced by the
document-intelligence service) is kept abstract as a type parameter `A`. -/
structure SessionDocument (A : Type) where
  filename : String
  document_type : String
  upload_timestamp : Nat
  analysis : A
  file_path : Option String := none
  deriving Repr, DecidableEq

/-- State of a `SessionDocumentStore` instance: `_store` maps a session id to
its document list, `_last_access` maps a session id to the time of its last
access (seconds). -/
structure StoreState (A : Type) where
  store : List (String × List (SessionDocument A))
  lastAccess : List (String × Nat)
  deriving Repr, DecidableEq

/-- Fresh store, as built by `SessionDocumentStore.__init__`. -/
def StoreState.init (A : Type) : StoreState A := ⟨[], []⟩

/-- Class constant `SESSION_MAX_AGE_HOURS = None` (sessions never expire). -/
def SESSION_MAX_AGE_HOURS : Option Nat := none

/-- Class constant `MAX_DOCUMENTS_PER_SESSION = 20`. -/
def MAX_DOCUMENTS_PER_SESSION : Nat := 20

/-- Embedding of `_cleanup_expired_sessions`: removes sessions whose last
access is older than `SESSION_MAX_AGE_HOURS`; with the configured `None` it
returns immediately. -/
def cleanupExpiredSessions {A : Type} (st : StoreState A) (now : Nat) :
    StoreState A :=
  match SESSION_MAX_AGE_HOURS with
  | none => st
  | some h =>
      let expired := (st.lastAccess.filter fun p => h * 3600 < now - p.2).map (·.1)
      { store := st.store.filter fun p => ¬ p.1 ∈ expired,
        lastAccess := st.lastAccess.filter fun p => ¬ p.1 ∈ expired }

/-- Embedding of `SessionDocumentStore.add_document`.  Python raises
`ValueError("Session ID cannot be empty")` when `not session_id or not
session_id.strip()`; since `"".strip() == ""`, this is exactly
`session_id.strip() == ""`, embedded via `pyStrip`.  At capacity the
oldest document is removed with `pop(0)` before appending. -/
def add_document {A : Type} (st : StoreState A) (now : Nat) (session_id : String)
    (filename : String) (document_type : String) (analysis : A)
    (file_path : Option String := none) : Except String (StoreState A) :=
  if pyStrip session_id = "" then .error "Session ID cannot be empty"
  else
    let st := cleanupExpiredSessions st now
    let docs := (alGet st.store session_id).getD []
    let docs := if MAX_DOCUMENTS_PER_SESSION ≤ docs.length then docs.drop 1 else docs
    let doc : SessionDocument A :=
      { filename := filename, document_type := document_type,
        upload_timestamp := now, analysis := analysis, file_path := file_path }
    .ok { store := alSet st.store session_id (docs ++ [doc]),
          lastAccess := alSet st.lastAccess session_id now }

/-- Embedding of `SessionDocumentStore.get_documents`: returns the session's
document list (empty for unknown sessions) and, for a known session, bumps
`_last_access` to the current time. -/
def get_documents {A : Type} (st : StoreState A) (now : Nat) (session_id : String) :
    List (SessionDocument A) × StoreState A :=
  let la := if (alGet st.store session_id).isSome
            then alSet st.lastAccess session_id now else st.lastAccess
  ((alGet st.store session_id).getD [], { st with lastAccess := la })

/-- Embedding of `SessionDocumentStore.get_latest_document`. -/
def get_latest_document {A : Type} (st : StoreState A) (now : Nat)
    (session_id : String) : Option (SessionDocument A) × StoreState A :=
  let r := get_documents st now session_id
  (r.1.getLast?, r.2)

/-- Embedding of `SessionDocumentStore.clear_session` (deletes only the
`_store` entry, leaving `_last_access` untouched, as in the source). -/
def clear_session {A : Type} (st : StoreState A) (session_id : String) :
    StoreState A :=
  if (alGet st.store session_id).isSome
  then { st with store := alErase st.store session_id }
  else st

/-- Embedding of `SessionDocumentStore.get_session_count`. -/
def get_session_count {A : Type} (st : StoreState A) : Nat := st.store.length

/-- Result of `get_session_info`.  `age_seconds` stands for the source's
`age_hours` float (`(now - last_access)/3600` there), kept in seconds to stay
in exact arithmetic; `documents` lists `(filename, type, uploaded)`. -/
structure SessionInfo where
  session_id : String
  document_count : Nat
  last_access : Option Nat
  age_seconds : Option Nat
  documents : List (String × String × Nat)
  deriving Repr, DecidableEq

/-- Embedding of `SessionDocumentStore.get_session_info` (read-only: does not
touch `_last_access`). -/
def get_session_info {A : Type} (st : StoreState A) (now : Nat)
    (session_id : String) : Option SessionInfo :=
  match alGet st.store session_id with
  | none => none
  | some docs =>
      let la := alGet st.lastAccess session_id
      some { session_id := session_id,
             document_count := docs.length,
             last_access := la,
             age_seconds := la.map (fun t => now - t),
             documents := docs.map fun d =>
               (d.filename, d.document_type, d.upload_timestamp) }

/-! ### String helpers used by the summary (ASCII fragment of Python's
`str.lower` / `str.title`) -/

/-- ASCII lower-casing of one character (Python `str.lower` restricted to
ASCII, which covers every string appearing in this code base). -/
def pyLowerChar (c : Char) : Char :=
  if 'A' ≤ c ∧ c ≤ 'Z' then Char.ofNat (c.toNat + 32) else c

/-- ASCII upper-casing of one character. -/
def pyUpperChar (c : Char) : Char :=
  if 'a' ≤ c ∧ c ≤ 'z' then Char.ofNat (c.toNat - 32) else c

/-- Python `str.lower` (ASCII fragment). -/
def pyLower (s : String) : String := ⟨s.data.map pyLowerChar⟩

/-- Python `str.title` (ASCII fragment): upper-case a letter that follows a
non-letter, lower-case the other letters.  The boolean tracks whether the
previous character was a letter. -/
def pyTitleAux : Bool → List Char → List Char
  | _, [] => []
  | prevAlpha, c :: cs =>
      (if c.isAlpha then (if prevAlpha then pyLowerChar c else pyUpperChar c) else c)
        :: pyTitleAux c.isAlpha cs

def pyTitle (s : String) : String := ⟨pyTitleAux false s.data⟩

/-- Embedding of `SessionDocumentStore.get_document_summary`.

The Python code reads `doc.analysis['fields'][name].get('value')` on the
untyped analysis dict; with the analysis abstract this triple dict access is
supplied as the oracle `fieldValue` (returning the rendered value when the
field is present with a truthy value, `none` otherwise, and `none` whenever
`analysis` is falsy or has no `'fields'` key).  The source's
`f"{hours:.1f}"` float rendering of the session age is kept in tenths of an
hour by truncation (exact arithmetic in place of floats).  Note that the
source calls `get_documents` first — which bumps `_last_access` to `now` —
and only afterwards reads `_last_access` for the age line. -/
def get_document_summary {A : Type} (fieldValue : A → String → Option String)
    (st : StoreState A) (now : Nat) (session_id : String) :
    String × StoreState A :=
  let r := get_documents st now session_id
  let docs := r.1
  if docs.isEmpty then ("No documents uploaded in this session.", r.2)
  else
    let header := "Documents uploaded in this session (" ++ toString docs.length
      ++ " total):"
    let docParts := docs.enum.flatMap fun p =>
      let doc := p.2
      let label := pyTitle (String.map (fun c => if c = '_' then ' ' else c)
        doc.document_type)
      let line := toString (p.1 + 1) ++ ". " ++ doc.filename ++ " (" ++ label ++ ")"
      let keyInfo :=
        (match fieldValue doc.analysis "AccountHolderName" with
          | some v => ["Account Holder: " ++ v] | none => []) ++
        (match fieldValue doc.analysis "BankName" with
          | some v => ["Bank: " ++ v] | none => []) ++
        (match fieldValue doc.analysis "InvoiceTotal" with
          | some v => ["Total: " ++ v] | none => []) ++
        (match fieldValue doc.analysis "VendorName" with
          | some v => ["Vendor: " ++ v] | none => [])
      if keyInfo.isEmpty then [line]
      else [line, "   - " ++ String.intercalate ", " keyInfo]
    let ageParts := match alGet r.2.lastAccess session_id with
      | none => []
      | some t =>
          let age := now - t
          if age < 3600 then
            ["\nSession active for " ++ toString (age / 60) ++ " minutes"]
          else
            ["\nSession active for " ++ toString (age * 10 / 3600 / 10) ++ "."
              ++ toString (age * 10 / 3600 % 10) ++ " hours"]
    (String.intercalate "\n" (header :: (docParts ++ ageParts)), r.2)

/-! ### Derived facts about the store -/

/-- With `SESSION_MAX_AGE_HOURS = None` the lazy expiry scan is a no-op. -/
theorem cleanupExpiredSessions_eq {A : Type} (st : StoreState A) (now : Nat) :
    cleanupExpiredSessions st now = st := rfl

/-- The `SessionDocument` built by one `add_document` call. -/
def mkDoc {A : Type} (p : Nat × String × String × A) : SessionDocument A :=
  { filename := p.2.1, document_type := p.2.2.1, upload_timestamp := p.1,
    analysis := p.2.2.2, file_path := none }

/-- Sequential `add_document` calls for one session, one per payload
`(now, filename, document_type, analysis)`. -/
def addMany {A : Type} (st : StoreState A) (sid : String) :
    List (Nat × String × String × A) → Except String (StoreState A)
  | [] => .ok st
  | p :: ps =>
      match add_document st p.1 sid p.2.1 p.2.2.1 p.2.2.2 none with
      | .error e => .error e
      | .ok st' => addMany st' sid ps

/-- The document-list transition performed by one `add_document` call on the
target session: evict the oldest entry when at capacity, then append. -/
def stepDocs {A : Type} (l : List (SessionDocument A)) (d : SessionDocument A) :
    List (SessionDocument A) :=
  (if MAX_DOCUMENTS_PER_SESSION ≤ l.length then l.drop 1 else l) ++ [d]

theorem add_document_ok {A : Type} (st : StoreState A) (now : Nat)
    (sid f t : String) (a : A) (fp : Option String) (h : pyStrip sid ≠ "") :
    add_document st now sid f t a fp =
      .ok { store := alSet st.store sid
              (stepDocs ((alGet st.store sid).getD [])
                { filename := f, document_type := t, upload_timestamp := now,
                  analysis := a, file_path := fp }),
            lastAccess := alSet st.lastAccess sid now } := by
  simp only [add_document, if_neg h, cleanupExpiredSessions_eq, stepDocs]

/-- Sliding-window characterization of repeated `stepDocs`: starting from at
most `MAX_DOCUMENTS_PER_SESSION` documents, folding in `ds` keeps exactly the
last `MAX_DOCUMENTS_PER_SESSION` of the concatenation. -/
theorem foldl_stepDocs {A : Type} (ds : List (SessionDocument A)) :
    ∀ l : List (SessionDocument A), l.length ≤ MAX_DOCUMENTS_PER_SESSION →
      ds.foldl stepDocs l =
        (l ++ ds).drop (l.length + ds.length - MAX_DOCUMENTS_PER_SESSION) := by
  induction ds with
  | nil =>
      intro l hl
      simp [Nat.sub_eq_zero_of_le hl]
  | cons d ds ih =>
      intro l hl
      have hM : MAX_DOCUMENTS_PER_SESSION = 20 := rfl
      have hstep : stepDocs l d
          = (l ++ [d]).drop (l.length + 1 - MAX_DOCUMENTS_PER_SESSION) := by
        by_cases hcap : MAX_DOCUMENTS_PER_SESSION ≤ l.length
        · have h1 : l.length + 1 - MAX_DOCUMENTS_PER_SESSION = 1 := by omega
          rw [stepDocs, if_pos hcap, h1,
            List.drop_append_of_le_length (by omega)]
        · have h1 : l.length + 1 - MAX_DOCUMENTS_PER_SESSION = 0 := by omega
          rw [stepDocs, if_neg hcap, h1, List.drop_zero]
      have hLlen : (stepDocs l d).length
          = l.length + 1 - (l.length + 1 - MAX_DOCUMENTS_PER_SESSION) := by
        rw [hstep]
        simp only [List.length_drop, List.length_append, List.length_singleton]
      have hle : (stepDocs l d).length ≤ MAX_DOCUMENTS_PER_SESSION := by omega
      rw [List.foldl_cons, ih _ hle, hLlen, hstep]
      have hk : l.length + 1 - MAX_DOCUMENTS_PER_SESSION ≤ (l ++ [d]).length := by
        simp only [List.length_append, List.length_singleton]
        omega
      rw [← List.drop_append_of_le_length hk, List.drop_drop]
      congr 1
      · simp only [List.length_cons]
        omega
      · simp


theorem alGet_alErase_isSome {α β : Type} [DecidableEq α] (l : List (α × β)) (k k' : α)
    (h : (alGet (alErase l k) k').isSome) : (alGet l k').isSome := by
  induction l with
  | nil => simp [alErase, alGet] at h
  | cons hd tl ih =>
      obtain ⟨k'', v''⟩ := hd
      by_cases h1 : k = k''
      · subst h1
        simp only [alErase, if_pos rfl] at h
        by_cases h2 : k' = k
        · simp [alGet, h2]
        · simpa [alGet, h2] using h
      · simp only [alErase, if_neg h1] at h
        by_cases h2 : k' = k''
        · simp [alGet, h2]
        · simp only [alGet, if_neg h2] at h ⊢
          exact ih h

/-- The state effect of `get_document_summary` is exactly that of the
`get_documents` call it makes. -/
theorem get_document_summary_state {A : Type} (fv : A → String → Option String)
    (st : StoreState A) (now : Nat) (sid : String) :
    (get_document_summary fv st now sid).2 = (get_documents st now sid).2 := by
  simp only [get_document_summary]
  split <;> rfl

/-- Store states reachable from a fresh `SessionDocumentStore` through its
public operations. -/
inductive Reachable {A : Type} : StoreState A → Prop
  | init : Reachable (StoreState.init A)
  | add (st st' : StoreState A) (now : Nat) (sid f t : String) (a : A)
      (fp : Option String) : Reachable st →
      add_document st now sid f t a fp = .ok st' → Reachable st'
  | read (st : StoreState A) (now : Nat) (sid : String) :
      Reachable st → Reachable (get_documents st now sid).2
  | latest (st : StoreState A) (now : Nat) (sid : String) :
      Reachable st → Reachable (get_latest_document st now sid).2
  | summarize (st : StoreState A) (fv : A → String → Option String) (now : Nat)
      (sid : String) : Reachable st →
      Reachable (get_document_summary fv st now sid).2
  | clear (st : StoreState A) (sid : String) :
      Reachable st → Reachable (clear_session st sid)

/-- In every reachable store state, every session key present in `_store` is
non-blank: `add_document` is the only operation that creates keys and it
rejects blank ids. -/
theorem reachable_keys_not_blank {A : Type} (st : StoreState A)
    (hr : Reachable st) :
    ∀ k, (alGet st.store k).isSome → pyStrip k ≠ "" := by
  induction hr with
  | init => intro k hk; simp [StoreState.init, alGet] at hk
  | add st st' now sid f t a fp _ heq ih =>
      intro k hk
      by_cases hs : pyStrip sid = ""
      · rw [add_document, if_pos hs] at heq
        cases heq
      · rw [add_document_ok st now sid f t a fp hs] at heq
        cases heq
        by_cases hks : k = sid
        · rw [hks]; exact hs
        · exact ih k (by rwa [alGet_alSet_ne _ _ _ _ hks] at hk)
  | read st now sid _ ih => exact ih
  | latest st now sid _ ih => exact ih
  | summarize st fv now sid _ ih =>
      intro k hk
      rw [get_document_summary_state] at hk
      exact ih k hk
  | clear st sid _ ih =>
      intro k hk
      rw [clear_session] at hk
      split at hk
      · exact ih k (alGet_alErase_isSome _ _ _ hk)
      · exact ih k hk

/-- Running `addMany` with a non-blank session id always succeeds, and the
target session's document list is the `stepDocs`-fold of the inserted
documents. -/
theorem addMany_docs {A : Type} (sid : String) (hsid : pyStrip sid ≠ "")
    (ps : List (Nat × String × String × A)) :
    ∀ st : StoreState A, ∃ st', addMany st sid ps = .ok st' ∧
      (alGet st'.store sid).getD [] =
        (ps.map mkDoc).foldl stepDocs ((alGet st.store sid).getD []) := by
  induction ps with
  | nil => intro st; exact ⟨st, rfl, rfl⟩
  | cons p ps ih =>
      intro st
      have hadd := add_document_ok st p.1 sid p.2.1 p.2.2.1 p.2.2.2 none hsid
      set st1 : StoreState A :=
        { store := alSet st.store sid
            (stepDocs ((alGet st.store sid).getD [])
              { filename := p.2.1, document_type := p.2.2.1,
                upload_timestamp := p.1, analysis := p.2.2.2,
                file_path := none }),
          lastAccess := alSet st.lastAccess sid p.1 } with hst1
      obtain ⟨st', h1, h2⟩ := ih st1
      refine ⟨st', ?_, ?_⟩
      · rw [addMany, hadd]
        exact h1
      · rw [h2, hst1]
        simp only [alGet_alSet_self, Option.getD_some, List.map_cons,
          List.foldl_cons]
        rfl

/-- Claim C4: for every session, inserting 21 documents via `add_document`
leaves exactly 20 documents, the survivors are the inserted documents minus
the very first one in unchanged insertion order, and a single insert into a
session at capacity evicts exactly the single oldest document before
appending the new one. -/
theorem registry_eviction_C4 {A : Type} (sid : String) (hsid : pyStrip sid ≠ "")
    (ps : List (Nat × String × String × A))
    (hlen : ps.length = MAX_DOCUMENTS_PER_SESSION + 1) :
    (∃ st', addMany (StoreState.init A) sid ps = .ok st' ∧
        (alGet st'.store sid).getD [] = (ps.map mkDoc).drop 1 ∧
        ((alGet st'.store sid).getD []).length = MAX_DOCUMENTS_PER_SESSION) ∧
    (∀ (st : StoreState A) (now : Nat) (f t : String) (a : A),
        ((alGet st.store sid).getD []).length = MAX_DOCUMENTS_PER_SESSION →
        add_document st now sid f t a none =
          .ok { store := alSet st.store sid
                  (((alGet st.store sid).getD []).drop 1 ++
                    [{ filename := f, document_type := t,
                       upload_timestamp := now, analysis := a,
                       file_path := none }]),
                lastAccess := alSet st.lastAccess sid now }) := by
  constructor
  · obtain ⟨st', h1, h2⟩ := addMany_docs sid hsid ps (StoreState.init A)
    have hinit : (alGet (StoreState.init A).store sid).getD []
        = ([] : List (SessionDocument A)) := rfl
    rw [hinit] at h2
    rw [foldl_stepDocs _ [] (by simp [MAX_DOCUMENTS_PER_SESSION])] at h2
    simp only [List.nil_append, List.length_nil, Nat.zero_add,
      List.length_map, hlen] at h2
    have hdrop : MAX_DOCUMENTS_PER_SESSION + 1 - MAX_DOCUMENTS_PER_SESSION = 1 := by
      omega
    rw [hdrop] at h2
    refine ⟨st', h1, h2, ?_⟩
    rw [h2, List.length_drop, List.length_map, hlen]
    omega
  · intro st now f t a hcap
    rw [add_document_ok st now sid f t a none hsid]
    congr 2
    rw [stepDocs, if_pos (le_of_eq hcap.symm)]

/-- Witness for C4 at a concrete input: 21 distinct documents inserted into
session "s1" of a fresh store. -/
theorem registry_eviction_C4_witness :
    pyStrip "s1" ≠ "" ∧
    ((List.range 21).map fun i => (i, "f", "bank_statement", i)).length
        = MAX_DOCUMENTS_PER_SESSION + 1 ∧
    ((∃ st', addMany (StoreState.init Nat) "s1"
          ((List.range 21).map fun i => (i, "f", "bank_statement", i)) = .ok st' ∧
        (alGet st'.store "s1").getD []
          = (((List.range 21).map fun i => (i, "f", "bank_statement", i)).map
              mkDoc).drop 1 ∧
        ((alGet st'.store "s1").getD []).length = MAX_DOCUMENTS_PER_SESSION) ∧
    (∀ (st : StoreState Nat) (now : Nat) (f t : String) (a : Nat),
        ((alGet st.store "s1").getD []).length = MAX_DOCUMENTS_PER_SESSION →
        add_document st now "s1" f t a none =
          .ok { store := alSet st.store "s1"
                  (((alGet st.store "s1").getD []).drop 1 ++
                    [{ filename := f, document_type := t,
                       upload_timestamp := now, analysis := a,
                       file_path := none }]),
                lastAccess := alSet st.lastAccess "s1" now })) :=
  ⟨by decide, by decide,
    registry_eviction_C4 "s1" (by decide) _ (by decide)⟩

/-- Claim C5: `add_document` raises the validation error exactly for blank
(empty or whitespace-only) session ids and succeeds for every other id, and
`get_documents` returns an empty list — without raising — for unknown ids and
for the empty id (in every reachable store state). -/
theorem registry_blank_session_C5 {A : Type} :
    (∀ (st : StoreState A) (now : Nat) (sid f t : String) (a : A)
        (fp : Option String), pyStrip sid = "" →
        add_document st now sid f t a fp =
          .error "Session ID cannot be empty") ∧
    (∀ (st : StoreState A) (now : Nat) (sid f t : String) (a : A)
        (fp : Option String), pyStrip sid ≠ "" →
        ∃ st', add_document st now sid f t a fp = .ok st') ∧
    (∀ (st : StoreState A) (now : Nat) (sid : String),
        alGet st.store sid = none → (get_documents st now sid).1 = []) ∧
    (∀ st : StoreState A, Reachable st → ∀ now : Nat,
        (get_documents st now "").1 = []) := by
  refine ⟨?_, ?_, ?_, ?_⟩
  · intro st now sid f t a fp h
    rw [add_document, if_pos h]
  · intro st now sid f t a fp h
    exact ⟨_, add_document_ok st now sid f t a fp h⟩
  · intro st now sid h
    simp [get_documents, h]
  · intro st hr now
    cases e : alGet st.store "" with
    | none => simp [get_documents, e]
    | some docs =>
        exact absurd (by decide)
          (reachable_keys_not_blank st hr "" (by simp [e]))

/-- Witness for C5 at concrete inputs: `add("")` and `add("   ")` fail with
the validation error, a non-blank id succeeds, and `list("")` on a fresh
store returns the empty list. -/
theorem registry_blank_session_C5_witness :
    (pyStrip "" = "" ∧ pyStrip "   " = "" ∧ pyStrip "s1" ≠ "") ∧
    add_document (StoreState.init Nat) 0 "" "f" "t" 7 none
      = .error "Session ID cannot be empty" ∧
    add_document (StoreState.init Nat) 0 "   " "f" "t" 7 none
      = .error "Session ID cannot be empty" ∧
    (∃ st', add_document (StoreState.init Nat) 0 "s1" "f" "t" 7 none
      = .ok st') ∧
    (get_documents (StoreState.init Nat) 5 "").1 = [] :=
  ⟨⟨by decide, by decide, by decide⟩,
    registry_blank_session_C5.1 _ 0 "" "f" "t" 7 none (by decide),
    registry_blank_session_C5.1 _ 0 "   " "f" "t" 7 none (by decide),
    registry_blank_session_C5.2.1 _ 0 "s1" "f" "t" 7 none (by decide),
    registry_blank_session_C5.2.2.2 _ Reachable.init 5⟩

/-- Claim C6: adding a document under session `A` leaves the document list of
every other session `B ≠ A` unchanged. -/
theorem registry_isolation_C6 {A : Type} (st st' : StoreState A)
    (now now2 : Nat) (sidA sidB f t : String) (a : A) (fp : Option String)
    (hne : sidB ≠ sidA)
    (hadd : add_document st now sidA f t a fp = .ok st') :
    (get_documents st' now2 sidB).1 = (get_documents st now2 sidB).1 := by
  by_cases hs : pyStrip sidA = ""
  · rw [add_document, if_pos hs] at hadd
    cases hadd
  · rw [add_document_ok st now sidA f t a fp hs] at hadd
    cases hadd
    simp only [get_documents]
    rw [alGet_alSet_ne _ _ _ _ hne]

/-- Witness for C6 at a concrete input: adding to session "a" of a fresh
store leaves session "b"'s (empty) list unchanged. -/
theorem registry_isolation_C6_witness :
    ("b" : String) ≠ "a" ∧
    add_document (StoreState.init Nat) 0 "a" "f" "t" 7 none =
      .ok (StoreState.mk [("a", [⟨"f", "t", 0, 7, none⟩])] [("a", 0)]) ∧
    (get_documents
        (StoreState.mk [("a", [⟨"f", "t", 0, 7, none⟩])] [("a", 0)]) 1 "b").1
      = (get_documents (StoreState.init Nat) 1 "b").1 :=
  ⟨by decide, rfl,
    registry_isolation_C6 _ _ 0 1 "a" "b" "f" "t" 7 none (by decide) rfl⟩

/-- Claim C10: for a known session, `get_documents` (and its callers
`get_latest_document` and `get_document_summary`) bump the session's
`_last_access` to the current time — observable through `get_session_info` —
while leaving the `_store` map, and hence every session's document list,
unchanged. -/
theorem registry_reads_touch_C10 {A : Type} (st : StoreState A)
    (now now2 : Nat) (sid : String) (fv : A → String → Option String)
    (h : (alGet st.store sid).isSome) :
    (∃ info, get_session_info (get_documents st now sid).2 now2 sid
        = some info ∧ info.last_access = some now) ∧
    (get_documents st now sid).2.store = st.store ∧
    (get_latest_document st now sid).2 = (get_documents st now sid).2 ∧
    (get_document_summary fv st now sid).2 = (get_documents st now sid).2 := by
  obtain ⟨docs, heq⟩ := Option.isSome_iff_exists.mp h
  refine ⟨⟨SessionInfo.mk sid docs.length (some now) (some (now2 - now))
      (docs.map fun d => (d.filename, d.document_type, d.upload_timestamp)),
      ?_, rfl⟩, rfl, rfl, get_document_summary_state fv st now sid⟩
  simp [get_session_info, get_documents, heq, h, alGet_alSet_self]

/-- Witness for C10 at a concrete input: reading session "s" at time 7 sets
its last access to 7, observable via `get_session_info`, with the stored
document lists untouched. -/
theorem registry_reads_touch_C10_witness :
    (alGet (StoreState.mk [("s", [⟨"f", "t", 3, (0 : Nat), none⟩])]
        [("s", 3)]).store "s").isSome ∧
    ((∃ info, get_session_info
        (get_documents (StoreState.mk [("s", [⟨"f", "t", 3, (0 : Nat), none⟩])]
          [("s", 3)]) 7 "s").2 9 "s" = some info ∧
        info.last_access = some 7) ∧
    (get_documents (StoreState.mk [("s", [⟨"f", "t", 3, (0 : Nat), none⟩])]
        [("s", 3)]) 7 "s").2.store
      = (StoreState.mk [("s", [⟨"f", "t", 3, (0 : Nat), none⟩])]
        [("s", 3)]).store ∧
    (get_latest_document (StoreState.mk [("s", [⟨"f", "t", 3, (0 : Nat), none⟩])]
        [("s", 3)]) 7 "s").2
      = (get_documents (StoreState.mk [("s", [⟨"f", "t", 3, (0 : Nat), none⟩])]
        [("s", 3)]) 7 "s").2 ∧
    (get_document_summary (fun _ _ => none)
        (StoreState.mk [("s", [⟨"f", "t", 3, (0 : Nat), none⟩])]
        [("s", 3)]) 7 "s").2
      = (get_documents (StoreState.mk [("s", [⟨"f", "t", 3, (0 : Nat), none⟩])]
        [("s", 3)]) 7 "s").2) :=
  ⟨by decide,
    registry_reads_touch_C10 _ 7 9 "s" (fun _ _ => none) (by decide)⟩

/-! ## Document analysis cache and service
(`app/services/document_intelligence_service.py`; the `DocumentCache` class
it uses lives in `app/utils/document_cache.py`, which is not part of the
source tree — its three operations are modelled from the spec, §4.1). -/

instance exceptDecEq {ε α : Type} [DecidableEq ε] [DecidableEq α] :
    DecidableEq (Except ε α) := fun x y =>
  match x, y with
  | .ok a, .ok b =>
      if h : a = b then isTrue (by rw [h])
      else isFalse (by intro hh; cases hh; exact h rfl)
  | .error a, .error b =>
      if h : a = b then isTrue (by rw [h])
      else isFalse (by intro hh; cases hh; exact h rfl)
  | .ok _, .error _ => isFalse (by intro hh; cases hh)
  | .error _, .ok _ => isFalse (by intro hh; cases hh)

/-- Python exceptions relevant to `analyze_document`: the Azure SDK classes
caught by its `except` clauses, plus a catch-all for every other exception.
An exception value is identified by its class and its message (`str(e)`;
for `HttpResponseError` also `e.status_code`). -/
inductive PyErr : Type
  | httpResponseError (status : Nat) (message : String)
  | serviceResponseError (message : String)
  | azureError (message : String)
  | otherError (message : String)
  deriving Repr, DecidableEq

/-- Python `str(e)` of an exception: its message. -/
def pyErrStr : PyErr → String
  | .httpResponseError _ m => m
  | .serviceResponseError m => m
  | .azureError m => m
  | .otherError m => m

/-- Modelled from the spec: the content fingerprint computed by the missing
`DocumentCache.get_cache_key` (`app/utils/document_cache.py`).  Per §4.1 and
the `CacheEntry` invariant, the key is a cryptographic hash over the file
content bytes and the requested document kind only — filenames and times are
excluded.  The hash is idealized as an injective encoding (collision
resistance): a length-prefixed concatenation of the content bytes and the
kind's characters. -/
def fingerprint (content : List Nat) (kind : String) : List Nat :=
  content.length :: (content ++ kind.data.map Char.toNat)

/-- Modelled from the spec: `DocumentCache.get_cache_key(file_path,
document_type)` (missing `app/utils/document_cache.py`).  The call site
passes a file path; per the spec the key is derived from the file's content
bytes, so the filesystem is an explicit map `fs` from paths to contents. -/
def DocumentCache.get_cache_key (fs : String → List Nat) (file_path : String)
    (document_type : String) : List Nat :=
  fingerprint (fs file_path) document_type

/-- Modelled from the spec: `DocumentCache.load(key, type)` (missing
`app/utils/document_cache.py`): returns the stored (deserialized) result on
a hit, `None` on a miss.  The serialize/deserialize round trip is modelled
as the identity, so the backing store holds result values keyed by
fingerprint. -/
def DocumentCache.load {R : Type} (cache : List (List Nat × R))
    (key : List Nat) : Option R :=
  alGet cache key

/-- Modelled from the spec: `DocumentCache.save(key, response)` (missing
`app/utils/document_cache.py`): serializes the result and stores it under
the fingerprint key. -/
def DocumentCache.save {R : Type} (cache : List (List Nat × R))
    (key : List Nat) (response : R) : List (List Nat × R) :=
  alSet cache key response

/-- The `MODEL_MAP` class constant of `DocumentIntelligenceService`. -/
def MODEL_MAP : List (String × String) :=
  [("bank_statement", "prebuilt-bankStatement.us"),
   ("invoice", "prebuilt-invoice"),
   ("receipt", "prebuilt-receipt"),
   ("tax_w2", "prebuilt-tax.us.w2"),
   ("prebuilt-layout", "prebuilt-layout")]

/-- The `except` clauses of `analyze_document`, in source order:
`HttpResponseError` is translated to `AzureError` with a status-dependent
message, `ServiceResponseError` is re-raised as a new `ServiceResponseError`
with a prefixed message, and every other exception is re-raised unchanged
(bare `raise`). -/
def handleAnalyzeError : PyErr → PyErr
  | .httpResponseError status m =>
      if status = 429 then
        .azureError ("Service rate limit exceeded. Please try again later. " ++ m)
      else if status = 408 then
        .azureError
          ("Request timed out. The document may be too large or complex. " ++ m)
      else .azureError ("Document Intelligence service error: " ++ m)
  | .serviceResponseError m =>
      .serviceResponseError
        ("Unable to connect to Document Intelligence service: " ++ m)
  | e => e

/-- Outcome of one `analyze_document` call: the returned value or raised
exception, the cache state afterwards, and how many times the Azure
provider (open + `begin_analyze_document` + `poller.result()` +
`_extract_result`) was invoked. -/
structure AnalyzeOutcome (R : Type) where
  result : Except PyErr R
  cache : List (List Nat × R)
  computeCalls : Nat
  deriving Repr, DecidableEq

/-- Embedding of `DocumentIntelligenceService.analyze_document`.  The Azure
call together with `_extract_result` is the oracle `compute` (taking the
file content and the resolved `model_id`); the filesystem is the map `fs`.
The source's `if cached_result:` truthiness test is a `some`-test, since a
Pydantic model instance is always truthy.  On a miss the result is computed,
saved, and returned; exceptions from the compute are mapped by the `except`
clauses and the cache is left unwritten. -/
def analyze_document {R : Type} (cache : List (List Nat × R))
    (fs : String → List Nat) (compute : List Nat → String → Except PyErr R)
    (file_path : String) (document_type : String) : AnalyzeOutcome R :=
  let model_id := (alGet MODEL_MAP document_type).getD document_type
  let cache_key := DocumentCache.get_cache_key fs file_path document_type
  match DocumentCache.load cache cache_key with
  | some cached_result => ⟨.ok cached_result, cache, 0⟩
  | none =>
      match compute (fs file_path) model_id with
      | .ok response =>
          ⟨.ok response, DocumentCache.save cache cache_key response, 1⟩
      | .error e => ⟨.error (handleAnalyzeError e), cache, 1⟩

theorem charToNat_injective : Function.Injective Char.toNat :=
  fun _ _ h => Char.ext (UInt32.ext h)

/-- Claim C1: with the key absent from the cache, the first
`analyze_document` call invokes the provider once, stores the result and
returns it; the second call with identical content and kind returns the
stored result with zero provider calls, identical to the first call's
output. -/
theorem cache_idempotent_C1 {R : Type} (cache : List (List Nat × R))
    (fs : String → List Nat) (compute : List Nat → String → Except PyErr R)
    (file_path document_type : String) (r : R)
    (hmiss : DocumentCache.load cache
        (DocumentCache.get_cache_key fs file_path document_type) = none)
    (hok : compute (fs file_path)
        ((alGet MODEL_MAP document_type).getD document_type) = .ok r) :
    (analyze_document cache fs compute file_path document_type).result
      = .ok r ∧
    (analyze_document cache fs compute file_path document_type).computeCalls
      = 1 ∧
    (analyze_document
        (analyze_document cache fs compute file_path document_type).cache
        fs compute file_path document_type).result = .ok r ∧
    (analyze_document
        (analyze_document cache fs compute file_path document_type).cache
        fs compute file_path document_type).computeCalls = 0 := by
  have h1 : analyze_document cache fs compute file_path document_type
      = ⟨.ok r, DocumentCache.save cache
          (DocumentCache.get_cache_key fs file_path document_type) r, 1⟩ := by
    simp [analyze_document, hmiss, hok]
  have hhit : DocumentCache.load
      (DocumentCache.save cache
        (DocumentCache.get_cache_key fs file_path document_type) r)
      (DocumentCache.get_cache_key fs file_path document_type) = some r :=
    alGet_alSet_self _ _ _
  have h2 : analyze_document
      (DocumentCache.save cache
        (DocumentCache.get_cache_key fs file_path document_type) r)
      fs compute file_path document_type
      = ⟨.ok r, DocumentCache.save cache
          (DocumentCache.get_cache_key fs file_path document_type) r, 0⟩ := by
    simp [analyze_document, hhit]
  rw [h1]
  exact ⟨rfl, rfl, by rw [h2], by rw [h2]⟩

/-- Witness for C1 at a concrete input: content [1, 2, 3], kind "invoice",
provider returning 42, starting from the empty cache. -/
theorem cache_idempotent_C1_witness :
    DocumentCache.load ([] : List (List Nat × Nat))
      (DocumentCache.get_cache_key (fun _ => [1, 2, 3]) "tmp1" "invoice")
      = none ∧
    ((fun _ _ => Except.ok 42) : List Nat → String → Except PyErr Nat)
      (( fun _ => [1, 2, 3]) "tmp1") ((alGet MODEL_MAP "invoice").getD "invoice")
      = .ok 42 ∧
    ((analyze_document ([] : List (List Nat × Nat)) (fun _ => [1, 2, 3])
        (fun _ _ => .ok 42) "tmp1" "invoice").result = .ok 42 ∧
    (analyze_document ([] : List (List Nat × Nat)) (fun _ => [1, 2, 3])
        (fun _ _ => .ok 42) "tmp1" "invoice").computeCalls = 1 ∧
    (analyze_document
        (analyze_document ([] : List (List Nat × Nat)) (fun _ => [1, 2, 3])
          (fun _ _ => .ok 42) "tmp1" "invoice").cache
        (fun _ => [1, 2, 3]) (fun _ _ => .ok 42) "tmp1" "invoice").result
      = .ok 42 ∧
    (analyze_document
        (analyze_document ([] : List (List Nat × Nat)) (fun _ => [1, 2, 3])
          (fun _ _ => .ok 42) "tmp1" "invoice").cache
        (fun _ => [1, 2, 3]) (fun _ _ => .ok 42) "tmp1" "invoice").computeCalls
      = 0) :=
  ⟨rfl, rfl, cache_idempotent_C1 [] (fun _ => [1, 2, 3]) (fun _ _ => .ok 42)
    "tmp1" "invoice" 42 rfl rfl⟩

/-- Claim C2: the cache key is deterministic in (content, kind), two keys
agree exactly when both the content and the kind agree (the cryptographic
hash idealized as injective), and the key computed from a file path depends
only on the file's content — not on the path/filename (and no timestamp
enters at all). -/
theorem fingerprint_deterministic_C2 :
    (∀ (c : List Nat) (k : String), fingerprint c k = fingerprint c k) ∧
    (∀ (c c' : List Nat) (k k' : String),
        fingerprint c k = fingerprint c' k' ↔ c = c' ∧ k = k') ∧
    (∀ (fs fs' : String → List Nat) (p p' k : String), fs p = fs' p' →
        DocumentCache.get_cache_key fs p k
          = DocumentCache.get_cache_key fs' p' k) := by
  refine ⟨fun _ _ => rfl, ?_, ?_⟩
  · intro c c' k k'
    constructor
    · intro h
      rw [fingerprint, fingerprint] at h
      have hlen : c.length = c'.length := (List.cons.injEq _ _ _ _ ▸ h).1
      have happ : c ++ k.data.map Char.toNat = c' ++ k'.data.map Char.toNat :=
        (List.cons.injEq _ _ _ _ ▸ h).2
      obtain ⟨hc, hk⟩ := List.append_inj happ hlen
      refine ⟨hc, ?_⟩
      have hdata : k.data = k'.data :=
        List.map_injective_iff.mpr charToNat_injective hk
      cases k; cases k'
      exact congrArg String.mk hdata
    · rintro ⟨rfl, rfl⟩
      rfl
  · intro fs fs' p p' k h
    rw [DocumentCache.get_cache_key, DocumentCache.get_cache_key, h]

/-- Witness for C2 at concrete inputs: same content under two different
paths gives the same key; changing the content or the kind changes the
key. -/
theorem fingerprint_deterministic_C2_witness :
    fingerprint [1, 2] "invoice" = fingerprint [1, 2] "invoice" ∧
    ((fun _ => [1, 2]) "a.pdf" = (fun (_ : String) => [1, 2]) "b.pdf" ∧
      DocumentCache.get_cache_key (fun _ => [1, 2]) "a.pdf" "invoice"
        = DocumentCache.get_cache_key (fun _ => [1, 2]) "b.pdf" "invoice") ∧
    fingerprint [1] "a" ≠ fingerprint [2] "a" ∧
    fingerprint [1] "a" ≠ fingerprint [1] "b" :=
  ⟨fingerprint_deterministic_C2.1 [1, 2] "invoice",
   ⟨rfl, fingerprint_deterministic_C2.2.2 _ _ "a.pdf" "b.pdf" "invoice" rfl⟩,
   fun h => absurd ((fingerprint_deterministic_C2.2.1 [1] [2] "a" "a").mp h).1
     (by decide),
   fun h => absurd ((fingerprint_deterministic_C2.2.1 [1] [1] "a" "b").mp h).2
     (by decide)⟩

/-- Counterexample to claim C3 as stated: a provider failure with
`HttpResponseError(status=429, "boom")` does leave the cache unwritten, but
the caller receives a different exception — `AzureError` with a new message —
not the original one. -/
theorem analyze_error_translated_C3_counterexample :
    (analyze_document ([] : List (List Nat × Nat)) (fun _ => [7])
        (fun _ _ => .error (.httpResponseError 429 "boom")) "tmp" "invoice").result
      = .error (.azureError
          "Service rate limit exceeded. Please try again later. boom") ∧
    (analyze_document ([] : List (List Nat × Nat)) (fun _ => [7])
        (fun _ _ => .error (.httpResponseError 429 "boom")) "tmp" "invoice").result
      ≠ .error (.httpResponseError 429 "boom") ∧
    (analyze_document ([] : List (List Nat × Nat)) (fun _ => [7])
        (fun _ _ => .error (.httpResponseError 429 "boom")) "tmp" "invoice").cache
      = [] := by
  refine ⟨rfl, ?_, rfl⟩
  decide

/-- Claim C3 as amended: when the provider raises, no cache entry is written
and an error propagates to the caller; exceptions other than
`HttpResponseError` and `ServiceResponseError` propagate unchanged, while
those two classes are translated by the `except` clauses
(`handleAnalyzeError`). -/
theorem analyze_error_no_cache_write_C3 {R : Type}
    (cache : List (List Nat × R)) (fs : String → List Nat)
    (compute : List Nat → String → Except PyErr R)
    (file_path document_type : String) (e : PyErr)
    (hmiss : DocumentCache.load cache
        (DocumentCache.get_cache_key fs file_path document_type) = none)
    (herr : compute (fs file_path)
        ((alGet MODEL_MAP document_type).getD document_type) = .error e) :
    (analyze_document cache fs compute file_path document_type).cache
      = cache ∧
    (analyze_document cache fs compute file_path document_type).result
      = .error (handleAnalyzeError e) ∧
    ((∀ st m, e ≠ .httpResponseError st m) →
      (∀ m, e ≠ .serviceResponseError m) → handleAnalyzeError e = e) := by
  have h1 : analyze_document cache fs compute file_path document_type
      = ⟨.error (handleAnalyzeError e), cache, 1⟩ := by
    simp [analyze_document, hmiss, herr]
  rw [h1]
  refine ⟨rfl, rfl, fun hh hs => ?_⟩
  cases e with
  | httpResponseError st m => exact absurd rfl (hh st m)
  | serviceResponseError m => exact absurd rfl (hs m)
  | azureError m => rfl
  | otherError m => rfl

/-- Witness for the amended C3 at a concrete input: a generic exception
"boom" is propagated unchanged and the (empty) cache stays empty. -/
theorem analyze_error_no_cache_write_C3_witness :
    DocumentCache.load ([] : List (List Nat × Nat))
      (DocumentCache.get_cache_key (fun _ => [7]) "tmp" "invoice") = none ∧
    ((fun _ _ => Except.error (PyErr.otherError "boom"))
        : List Nat → String → Except PyErr Nat)
      ((fun _ => [7]) "tmp") ((alGet MODEL_MAP "invoice").getD "invoice")
      = .error (.otherError "boom") ∧
    ((analyze_document ([] : List (List Nat × Nat)) (fun _ => [7])
        (fun _ _ => .error (.otherError "boom")) "tmp" "invoice").cache = [] ∧
    (analyze_document ([] : List (List Nat × Nat)) (fun _ => [7])
        (fun _ _ => .error (.otherError "boom")) "tmp" "invoice").result
      = .error (handleAnalyzeError (.otherError "boom")) ∧
    ((∀ st m, PyErr.otherError "boom" ≠ .httpResponseError st m) →
      (∀ m, PyErr.otherError "boom" ≠ .serviceResponseError m) →
      handleAnalyzeError (.otherError "boom") = .otherError "boom")) :=
  ⟨rfl, rfl, analyze_error_no_cache_write_C3 [] (fun _ => [7])
    (fun _ _ => .error (.otherError "boom")) "tmp" "invoice"
    (.otherError "boom") rfl rfl⟩

/-! ## Document upload endpoint
(`app/routers/document_intelligence_router.py`) -/

/-- The router's `ALLOWED_EXTENSIONS` set (one fixed iteration order). -/
def ALLOWED_EXTENSIONS : List String :=
  [".pdf", ".png", ".jpg", ".jpeg", ".tiff", ".bmp"]

/-- The final path component (Python `pathlib` name: everything after the
last '/'). -/
def lastComponent (cs : List Char) : List Char :=
  (cs.reverse.takeWhile (· ≠ '/')).reverse

/-- Python `Path(filename).suffix`: the extension of the final component,
i.e. `name[i:]` for `i = name.rfind('.')` when `0 < i < len(name) - 1`,
else the empty string. -/
def path_suffix (filename : String) : String :=
  let name := lastComponent filename.data
  match name.reverse.findIdx? (· = '.') with
  | none => ""
  | some j =>
      if 0 < j ∧ j < name.length - 1
      then ⟨name.drop (name.length - 1 - j)⟩ else ""

/-- Embedding of the router's `validate_file_extension`. -/
def validate_file_extension (filename : String) : Bool :=
  ALLOWED_EXTENSIONS.contains (pyLower (path_suffix filename))

/-- Embedding of `DocumentUploadResponse` (analysis kept abstract as `R`,
like the cache payload). -/
structure DocumentUploadResponse (R : Type) where
  success : Bool
  message : String
  filename : String
  document_type : String
  analysis : Option R := none
  error : Option String := none
  deriving Repr, DecidableEq

/-- Outcome of one call to the upload endpoint over the whole application
state: the HTTP result (a raised `HTTPException` as `(status, detail)` or the
response body), the document-cache state, the session-store state, and the
number of provider calls made. -/
structure UploadOutcome (R A : Type) where
  response : Except (Nat × String) (DocumentUploadResponse R)
  cache : List (List Nat × R)
  store : StoreState A
  computeCalls : Nat

/-- Embedding of the `upload_document` endpoint
(`document_intelligence_router.py`, lines 45-108) acting on the global
application state (document cache + session document store).

The uploaded bytes are written to a fresh temporary file (`tmp_path`, whose
randomly suffixed name differs per call) and `analyze_document` is called on
that path, so its filesystem view maps the path to the uploaded `content`.
On an invalid extension the handler raises `HTTPException(400, ...)`; on an
analysis exception it returns a `success := false` body carrying `str(e)`.

The handler accepts no session identifier and contains no call into
`SessionDocumentStore`, so the store component of the state is returned
untouched. -/
def upload_document {R A : Type} (cache : List (List Nat × R))
    (store : StoreState A) (compute : List Nat → String → Except PyErr R)
    (filename : String) (document_type : String) (content : List Nat)
    (tmp_path : String) : UploadOutcome R A :=
  if filename = "" ∨ validate_file_extension filename = false then
    ⟨.error (400, "Invalid file type. Allowed types: "
        ++ String.intercalate ", " ALLOWED_EXTENSIONS),
      cache, store, 0⟩
  else
    let o := analyze_document cache (fun _ => content) compute tmp_path
      document_type
    match o.result with
    | .ok analysis_result =>
        ⟨.ok ⟨true, "Document analyzed successfully", filename, document_type,
            some analysis_result, none⟩,
          o.cache, store, o.computeCalls⟩
    | .error e =>
        ⟨.ok ⟨false, "Document analysis failed", filename, document_type,
            none, some (pyErrStr e)⟩,
          o.cache, store, o.computeCalls⟩

/-- Claim C7 evaluated on the code at the failing input: uploading the same
bank-statement content twice does hit the cache on the second upload (one
provider call in total), but the upload endpoint never calls
`SessionDocumentStore.add_document` — it accepts no session identifier — so
the registry still has 0 documents for every session afterwards, not 2. -/
theorem upload_registry_gap_C7 :
    (upload_document ([] : List (List Nat × Nat)) (StoreState.init Nat)
        (fun _ _ => .ok 99) "a.pdf" "bank_statement" [1, 2, 3] "t1").computeCalls
      = 1 ∧
    (upload_document
        (upload_document ([] : List (List Nat × Nat)) (StoreState.init Nat)
          (fun _ _ => .ok 99) "a.pdf" "bank_statement" [1, 2, 3] "t1").cache
        (upload_document ([] : List (List Nat × Nat)) (StoreState.init Nat)
          (fun _ _ => .ok 99) "a.pdf" "bank_statement" [1, 2, 3] "t1").store
        (fun _ _ => .ok 99) "b.pdf" "bank_statement" [1, 2, 3] "t2").computeCalls
      = 0 ∧
    (upload_document
        (upload_document ([] : List (List Nat × Nat)) (StoreState.init Nat)
          (fun _ _ => .ok 99) "a.pdf" "bank_statement" [1, 2, 3] "t1").cache
        (upload_document ([] : List (List Nat × Nat)) (StoreState.init Nat)
          (fun _ _ => .ok 99) "a.pdf" "bank_statement" [1, 2, 3] "t1").store
        (fun _ _ => .ok 99) "b.pdf" "bank_statement" [1, 2, 3] "t2").store
      = StoreState.init Nat ∧
    (get_documents
        (upload_document
          (upload_document ([] : List (List Nat × Nat)) (StoreState.init Nat)
            (fun _ _ => .ok 99) "a.pdf" "bank_statement" [1, 2, 3] "t1").cache
          (upload_document ([] : List (List Nat × Nat)) (StoreState.init Nat)
            (fun _ _ => .ok 99) "a.pdf" "bank_statement" [1, 2, 3] "t1").store
          (fun _ _ => .ok 99) "b.pdf" "bank_statement" [1, 2, 3] "t2").store
        0 "s1").1.length = 0 := by
  decide

/-! ## Chat error path
(`app/services/agent_service.py` lines 287-408 and
`app/routers/chat_router.py` lines 66-133) -/

/-- Bool test that `needle` occurs at the start of `hay`. -/
def charsLeadWith : List Char → List Char → Bool
  | _, [] => true
  | [], _ :: _ => false
  | a :: as, b :: bs => a = b && charsLeadWith as bs

/-- Bool test that `needle` occurs somewhere in `hay`. -/
def charsHaveSubstr : List Char → List Char → Bool
  | [], needle => needle.isEmpty
  | a :: t, needle => charsLeadWith (a :: t) needle || charsHaveSubstr t needle

/-- Python `needle in hay` on strings. -/
def strContains (hay needle : String) : Bool :=
  charsHaveSubstr hay.data needle.data

/-- The message of the `Exception` raised by the inner
`except asyncio.TimeoutError` handler of `AgentService.chat` (lines
345-350). -/
def innerTimeoutMessage : String :=
  "I apologize, but processing your request is taking longer than expected. "
    ++ "This might be due to high service load. Please try again in a moment."

/-- The message raised by the outer handler's timeout branch (lines
385-390). -/
def turnTimeoutMessage : String :=
  "The request took too long to process. Please try again with a simpler "
    ++ "question or contact support if the issue persists."

/-- The message raised by the outer handler's rate-limit branch (lines
391-396). -/
def rateLimitMessage : String :=
  "Our service is currently experiencing high demand. "
    ++ "Please wait a moment and try again."

/-- The message raised by the outer handler's connection branch (lines
397-402). -/
def connectionMessage : String :=
  "Unable to connect to AI services. Please check your internet connection "
    ++ "and try again."

/-- The message raised by the outer handler's fallback branch (lines
403-408). -/
def genericErrorMessage : String :=
  "I encountered an error processing your message. Please try rephrasing "
    ++ "your question or contact support if the issue continues."

/-- The outer `except Exception` handler of `AgentService.chat` (lines
380-408): it classifies `error_msg = str(e)` by keyword tests and raises the
corresponding fixed user-facing message. -/
def friendlyErrorMessage (error_msg : String) : String :=
  if strContains (pyLower error_msg) "timeout" then turnTimeoutMessage
  else if strContains (pyLower error_msg) "rate limit"
      || strContains error_msg "429" then rateLimitMessage
  else if strContains (pyLower error_msg) "connection"
      || strContains (pyLower error_msg) "network" then connectionMessage
  else genericErrorMessage

/-- Result of the `await asyncio.wait_for(self.agent.ainvoke(...), 90.0)`
call: a reply, an `asyncio.TimeoutError` when the 90-second turn budget
expires, or any other exception with its `str(e)`. -/
inductive AgentInvokeResult : Type
  | ok (response : String)
  | timedOut
  | failed (message : String)
  deriving Repr, DecidableEq

/-- Embedding of `AgentService.chat`'s control flow.  On
`asyncio.TimeoutError` the inner handler raises
`Exception(innerTimeoutMessage)`; since that `raise` happens inside the
outer `try`, the outer `except Exception` catches it and classifies that
very message.  On any other exception the outer handler classifies
`str(e)` directly.  `.error m` stands for `raise Exception(m)` reaching the
caller. -/
def AgentService.chat (invoke : AgentInvokeResult) : Except String String :=
  match invoke with
  | .ok response => .ok response
  | .timedOut => .error (friendlyErrorMessage innerTimeoutMessage)
  | .failed m => .error (friendlyErrorMessage m)

/-- HTTP-level outcome of the chat endpoint: a JSON reply or an
`HTTPException` with status and detail. -/
inductive ChatOutcome : Type
  | reply (message session_id : String)
  | httpError (status : Nat) (detail : String)
  deriving Repr, DecidableEq

/-- Embedding of the `chat` endpoint (`chat_router.py`, lines 66-133):
empty-message / empty-session validation (the raised `HTTPException`s pass
through the `except HTTPException: raise` clause unchanged), then the agent
call; any exception from it is wrapped as
`HTTPException(500, "Failed to process chat message: " + str(e))`. -/
def ChatRouter.chat (message session_id : String)
    (invoke : AgentInvokeResult) : ChatOutcome :=
  if pyStrip message = "" then .httpError 400 "Message cannot be empty"
  else if pyStrip session_id = "" then .httpError 400 "Session ID is required"
  else
    match AgentService.chat invoke with
    | .ok response => .reply response session_id
    | .error m => .httpError 500 ("Failed to process chat message: " ++ m)

/-- Claim C8 evaluated on the code at the failing input: when the 90-second
turn budget expires, the inner handler's dedicated timeout message does not
contain the substring "timeout", so the outer handler's keyword test misses
it and replaces it with the generic fallback message — the turn terminates
with a generic non-timeout error (no unhandled exception), not with either
fixed timeout message. -/
theorem chat_timeout_generic_C8 :
    AgentService.chat .timedOut = .error genericErrorMessage ∧
    ChatRouter.chat "hello" "s1" .timedOut
      = .httpError 500
          ("Failed to process chat message: " ++ genericErrorMessage) ∧
    genericErrorMessage ≠ innerTimeoutMessage ∧
    genericErrorMessage ≠ turnTimeoutMessage := by
  decide

/-- Counterexample to claim C9 as stated: two chat requests failing with
different internal exception texts produce different user-facing error
contents, because the outer handler's message depends on keywords of the
internal text. -/
theorem chat_error_not_uniform_C9_counterexample :
    ChatRouter.chat "hi" "s" (.failed "connection lost")
      ≠ ChatRouter.chat "hi" "s" (.failed "boom") := by
  decide

/-- Claim C9 as amended: every failing chat request surfaces as HTTP 500
whose detail is the fixed prefix plus one of the four fixed user-facing
messages, chosen by keyword classification of the internal exception text —
the internal text is not included verbatim, but the choice among the four
messages does depend on it. -/
theorem chat_error_fixed_set_C9 (message session_id m : String)
    (hmsg : pyStrip message ≠ "") (hsid : pyStrip session_id ≠ "") :
    ChatRouter.chat message session_id (.failed m)
      = .httpError 500
          ("Failed to process chat message: " ++ friendlyErrorMessage m) ∧
    (friendlyErrorMessage m = turnTimeoutMessage ∨
     friendlyErrorMessage m = rateLimitMessage ∨
     friendlyErrorMessage m = connectionMessage ∨
     friendlyErrorMessage m = genericErrorMessage) := by
  constructor
  · rw [ChatRouter.chat, if_neg hmsg, if_neg hsid]
    rfl
  · rw [friendlyErrorMessage]
    split
    · exact Or.inl rfl
    · split
      · exact Or.inr (Or.inl rfl)
      · split
        · exact Or.inr (Or.inr (Or.inl rfl))
        · exact Or.inr (Or.inr (Or.inr rfl))

/-- Witness for the amended C9 at a concrete input: an internal "boom"
failure surfaces as the generic message. -/
theorem chat_error_fixed_set_C9_witness :
    pyStrip "hi" ≠ "" ∧ pyStrip "s" ≠ "" ∧
    (ChatRouter.chat "hi" "s" (.failed "boom")
      = .httpError 500
          ("Failed to process chat message: " ++ friendlyErrorMessage "boom") ∧
    (friendlyErrorMessage "boom" = turnTimeoutMessage ∨
     friendlyErrorMessage "boom" = rateLimitMessage ∨
     friendlyErrorMessage "boom" = connectionMessage ∨
     friendlyErrorMessage "boom" = genericErrorMessage)) :=
  ⟨by decide, by decide,
    chat_error_fixed_set_C9 "hi" "s" "boom" (by decide) (by decide)⟩
